import Mathlib

/-!
Verification development for the adaptive hierarchical summarization engine
of `src/summarize.js` (slack-export-summary).

The JavaScript source is shallowly embedded: strings are Lean `String`s,
line lists are `List String`, timestamps are `Int` milliseconds, the
filesystem cache is passed in explicitly (`Option (Option CacheData)`:
missing file / unparsable file / parsed record), and the OpenAI client is
an oracle `Nat → Except ApiErr String` consumed one response per call, in
call order.  Every function is a total computable definition, so the
embedding by construction never propagates an exception.
-/

namespace SlackSummary

/-- Whitespace characters removed by the model of JS `String.prototype.trim`. -/
def isWsChar (c : Char) : Bool :=
  c == ' ' || c == '\n' || c == '\t' || c == '\r'

/-- Trim whitespace from both ends of a character list (JS `trim`). -/
def trimL (l : List Char) : List Char :=
  ((l.dropWhile isWsChar).reverse.dropWhile isWsChar).reverse

/-- Model of JS `String.prototype.trim`. -/
def strTrim (s : String) : String :=
  ⟨trimL s.data⟩

/-- Split a character list at `'\n'`; always returns at least one piece,
mirroring JS `content.split("\n")` (which maps `""` to `[""]`). -/
def splitNlChars : List Char → List (List Char)
  | [] => [[]]
  | c :: cs =>
    if c = '\n' then [] :: splitNlChars cs
    else
      match splitNlChars cs with
      | [] => [[c]]
      | h :: t => (c :: h) :: t

/-- The line sequence of a document: JS `content.split("\n")`. -/
def splitLines (s : String) : List String :=
  (splitNlChars s.data).map (fun l => ⟨l⟩)

/-- JS `lines.join("\n")`. -/
def joinNl (ls : List String) : String :=
  String.intercalate "\n" ls

/-- JS `line.startsWith("## ")`: a section-boundary line. -/
def isBoundaryLine (l : String) : Bool :=
  "## ".data.isPrefixOf l.data

/-- Index of the first section-boundary line of a line list, if any:
the JS forward scan `for (i = start; ...) if (lines[i].startsWith("## "))`. -/
def findBoundary : List String → Option Nat
  | [] => none
  | l :: ls =>
    if isBoundaryLine l then some 0
    else (findBoundary ls).map (· + 1)

/-- The split index chosen by `splitMonthContent`: the first boundary line at
or after the midpoint `lines.length / 2`, else the midpoint
(src/summarize.js lines 559-570). -/
def splitIndexTwo (lines : List String) : Nat :=
  match findBoundary (lines.drop (lines.length / 2)) with
  | some j => lines.length / 2 + j
  | none => lines.length / 2

/-- `splitMonthContent` (src/summarize.js lines 559-576): split the document
into `firstHalf` (lines before the split index) and `secondHalf` (lines from
the split index on). -/
def splitMonthContent (content : String) : String × String :=
  let lines := splitLines content
  let splitIndex := splitIndexTwo lines
  (joinNl (lines.take splitIndex), joinNl (lines.drop splitIndex))

/-- The split point for quarter `q` (q = 1, 2, 3) chosen by
`splitMonthContentIntoFour`: scan from `q * quarterSize` up to
`min (q * quarterSize + quarterSize) lines.length` for a boundary line,
defaulting to the raw target index (src/summarize.js lines 588-605). -/
def quarterSplitPoint (lines : List String) (q : Nat) : Nat :=
  match findBoundary ((lines.drop (q * (lines.length / 4))).take
      (min (q * (lines.length / 4) + lines.length / 4) lines.length
        - q * (lines.length / 4))) with
  | some j => q * (lines.length / 4) + j
  | none => q * (lines.length / 4)

/-- `splitMonthContentIntoFour` (src/summarize.js lines 581-615): the four
quarter segments, cut at the three quarter split points;
`lines.slice(a, b)` is `(lines.drop a).take (b - a)`. -/
def splitMonthContentIntoFour (content : String) : List String :=
  let lines := splitLines content
  let p0 := quarterSplitPoint lines 1
  let p1 := quarterSplitPoint lines 2
  let p2 := quarterSplitPoint lines 3
  [ joinNl (lines.take p0),
    joinNl ((lines.drop p0).take (p1 - p0)),
    joinNl ((lines.drop p1).take (p2 - p1)),
    joinNl (lines.drop p2) ]

/-- `pat` occurs as a contiguous substring of `s` (JS `String.includes`). -/
def hasSub (p : List Char) : List Char → Bool
  | [] => p.isEmpty
  | c :: cs => p.isPrefixOf (c :: cs) || hasSub p cs

/-- The string-sniffing size-limit classifier (src/summarize.js lines 833-835):
`error.message.includes("Input tokens exceed") || error.message.includes("token limit")`. -/
def isTokenLimitError (msg : String) : Bool :=
  hasSub "Input tokens exceed".data msg.data || hasSub "token limit".data msg.data

/-- Replace the first occurrence of `pat` in a character list
(JS `String.prototype.replace` with a string pattern). -/
def replaceFirstL (pat rep : List Char) : List Char → List Char
  | [] => if pat.isPrefixOf ([] : List Char) then rep else []
  | c :: cs =>
    if pat.isPrefixOf (c :: cs) then rep ++ (c :: cs).drop pat.length
    else c :: replaceFirstL pat rep cs

/-- JS `s.replace(pat, rep)` for string patterns: first occurrence only. -/
def replaceFirst (s pat rep : String) : String :=
  ⟨replaceFirstL pat.data rep.data s.data⟩

/-- `p` is a prefix of `s`, on the underlying character lists. -/
def strStarts (p s : String) : Bool :=
  p.data.isPrefixOf s.data

/-! ## The stateful engine

`generateMonthSummary` and its helpers perform filesystem reads, cache
writes and OpenAI calls.  The embedding passes that state explicitly:

* the parsed full-summary cache file is `Option (Option CacheData)`
  (`none` = file missing, `some none` = file exists but does not parse,
  `some (some d)` = parsed record), and likewise for the digest cache;
* the OpenAI client is an oracle `Nat → Except ApiErr String` consumed one
  response per `chat.completions.create` call, in call order;
* a state record `S` accumulates the call count, the log of calls made
  (tag and user-message payload) and the cache writes.
-/

/-- A failure thrown by the OpenAI client: only its `message` is inspected. -/
structure ApiErr where
  message : String
deriving DecidableEq, Repr

/-- Which call site issued an API request. -/
inductive CallTag where
  | whole
  | firstHalf
  | secondHalf
  | quarter (i : Nat)
  | combineFour
  | digest
deriving DecidableEq, Repr

/-- Parsed full-summary cache record (`{timestamp, summary}`;
`summary = none` models a missing/absent field, `some ""` an empty one). -/
structure CacheData where
  timestamp : Int
  summary : Option String
deriving DecidableEq, Repr

/-- Parsed one-sentence (digest) cache record. -/
structure DigestData where
  timestamp : Int
  oneSentenceSummary : Option String
deriving DecidableEq, Repr

/-- Effect state threaded through one `generateMonthSummary` run. -/
structure S where
  n : Nat
  calls : List (CallTag × String)
  fullWrite : Option String
  digestWrite : Option String
deriving DecidableEq, Repr

/-- The state at the start of a run: no calls made, no cache writes. -/
def initS : S := ⟨0, [], none, none⟩

/-- `maxAge`: 7 days in milliseconds (src/summarize.js line 522). -/
def maxAgeMs : Int := 7 * 24 * 60 * 60 * 1000

/-- JS truthiness of an optional string field: `undefined` and `""` are falsy. -/
def truthyStr : Option String → Bool
  | none => false
  | some s => !(s == "")

/-- `getCachedSummary` (src/summarize.js lines 510-539): the cached summary,
or `none` when the file is missing, unparsable, older than `maxAge`
(an age exactly equal to `maxAge` is still valid), or its summary is falsy
or shorter than 10 characters. -/
def getCachedSummary (now : Int) : Option (Option CacheData) → Option String
  | none => none
  | some none => none
  | some (some cacheData) =>
    if now - cacheData.timestamp > maxAgeMs then none
    else
      match cacheData.summary with
      | none => none
      | some summary => if summary.length < 10 then none else some summary

/-- One `openai.chat.completions.create` call: consume the next oracle
response and log the call. -/
def callApi (oracle : Nat → Except ApiErr String) (tag : CallTag) (payload : String)
    (s : S) : Except ApiErr String × S :=
  (oracle s.n, { s with n := s.n + 1, calls := s.calls ++ [(tag, payload)] })

/-- The user message of the digest request (src/summarize.js line 720). -/
def oneSentencePrompt (fullSummary : String) : String :=
  "Please create a one-sentence summary of this month's activities:\n\n" ++ fullSummary

/-- `generateOneSentenceSummary` (src/summarize.js lines 682-748): reuse the
cached digest when it parses, is at most 7 days old and its
`oneSentenceSummary` field is truthy; otherwise call the API, on success
trim and cache the digest, on failure return the fixed fallback sentence.
Internal errors are caught, so the caller never sees an exception. -/
def generateOneSentenceSummary (now : Int) (oracle : Nat → Except ApiErr String)
    (fullSummary : String) (digestCache : Option (Option DigestData)) (s : S) :
    String × S :=
  match digestCache with
  | some (some cacheData) =>
    if now - cacheData.timestamp ≤ maxAgeMs ∧ truthyStr cacheData.oneSentenceSummary = true then
      (cacheData.oneSentenceSummary.getD "", s)
    else
      match callApi oracle CallTag.digest (oneSentencePrompt fullSummary) s with
      | (Except.ok txt, s') => (strTrim txt, { s' with digestWrite := some (strTrim txt) })
      | (Except.error _, s') => ("Unable to generate summary.", s')
  | _ =>
    match callApi oracle CallTag.digest (oneSentencePrompt fullSummary) s with
    | (Except.ok txt, s') => (strTrim txt, { s' with digestWrite := some (strTrim txt) })
    | (Except.error _, s') => ("Unable to generate summary.", s')

/-- The user message of the four-way combine request (src/summarize.js line 663). -/
def combineFourPrompt (monthName : String) (summaries : List String) : String :=
  "Please combine these four summaries for " ++ monthName ++
    " into one comprehensive summary:\n\nFirst quarter summary:\n" ++ summaries.getD 0 "" ++
    "\n\nSecond quarter summary:\n" ++ summaries.getD 1 "" ++
    "\n\nThird quarter summary:\n" ++ summaries.getD 2 "" ++
    "\n\nFourth quarter summary:\n" ++ summaries.getD 3 ""

/-- `combineFourSummaries` (src/summarize.js lines 651-677): one combine call,
falling back to `summaries.join("\n\n")` when the call fails. -/
def combineFourSummaries (oracle : Nat → Except ApiErr String) (summaries : List String)
    (monthName : String) (s : S) : String × S :=
  match callApi oracle CallTag.combineFour (combineFourPrompt monthName summaries) s with
  | (Except.ok c, s') => (strTrim c, s')
  | (Except.error _, s') => (String.intercalate "\n\n" summaries, s')

/-- The heading block `## <monthName>\n\n` opening every output of
`generateMonthSummary`. -/
def headPat (monthName : String) : String :=
  "## " ++ monthName ++ "\n\n"

/-- The inline error block `## <monthName>\n\nError generating summary: <msg>`. -/
def errText (monthName msg : String) : String :=
  headPat monthName ++ ("Error generating summary: " ++ msg)

/-- The fixed placeholder block for an empty or trivial summarizer response
(src/summarize.js line 806). -/
def placeholderText (monthName : String) : String :=
  headPat monthName ++ "No significant activity recorded for this month."

/-- Splice the tl;dr line after the heading:
`formatted.replace("## m\n\n", "## m\n\n**tl;dr:** <one>\n\n")`. -/
def addTldr (monthName one formatted : String) : String :=
  replaceFirst formatted (headPat monthName)
    (headPat monthName ++ ("**tl;dr:** " ++ (one ++ "\n\n")))

/-- The tail of the four-part escalation after all four quarter calls
succeeded (src/summarize.js lines 943-971): combine the four quarter
summaries via `combineFourSummaries`, derive the digest, cache the combined
summary (without the tl;dr) and return the digest-spliced text. -/
def afterQuarters (oracle : Nat → Except ApiErr String) (now : Int)
    (monthName : String) (digestCache : Option (Option DigestData))
    (quarterSummaries : List String) (s : S) : String × S :=
  let cs := combineFourSummaries oracle quarterSummaries monthName s
  let formatted := headPat monthName ++ cs.fst
  let os := generateOneSentenceSummary now oracle formatted digestCache cs.snd
  (addTldr monthName os.fst formatted, { os.snd with fullWrite := some formatted })

/-- The four-part escalation (src/summarize.js lines 910-978): split the
original document into four quarters, summarize each in order (a failing
quarter call becomes the inline error block), combine via
`combineFourSummaries`, derive the digest, cache the combined summary. -/
def quartersAttempt (oracle : Nat → Except ApiErr String) (now : Int)
    (monthName content : String) (digestCache : Option (Option DigestData)) (s : S) :
    String × S :=
  match callApi oracle (CallTag.quarter 0)
      ("# " ++ monthName ++ " (First Quarter)\n\n" ++
        (splitMonthContentIntoFour content).getD 0 "") s with
  | (Except.error e, s1) => (errText monthName e.message, s1)
  | (Except.ok r0, s1) =>
    match callApi oracle (CallTag.quarter 1)
        ("# " ++ monthName ++ " (Second Quarter)\n\n" ++
          (splitMonthContentIntoFour content).getD 1 "") s1 with
    | (Except.error e, s2) => (errText monthName e.message, s2)
    | (Except.ok r1, s2) =>
      match callApi oracle (CallTag.quarter 2)
          ("# " ++ monthName ++ " (Third Quarter)\n\n" ++
            (splitMonthContentIntoFour content).getD 2 "") s2 with
      | (Except.error e, s3) => (errText monthName e.message, s3)
      | (Except.ok r2, s3) =>
        match callApi oracle (CallTag.quarter 3)
            ("# " ++ monthName ++ " (Fourth Quarter)\n\n" ++
              (splitMonthContentIntoFour content).getD 3 "") s3 with
        | (Except.error e, s4) => (errText monthName e.message, s4)
        | (Except.ok r3, s4) =>
          afterQuarters oracle now monthName digestCache
            [strTrim r0, strTrim r1, strTrim r2, strTrim r3] s4

/-- The `catch (splitError)` handler of the two-half attempt
(src/summarize.js lines 900-986): a size-limit error escalates to the
four-part split of the original document, anything else is the inline
error block. -/
def onSplitError (oracle : Nat → Except ApiErr String) (now : Int)
    (monthName content : String) (digestCache : Option (Option DigestData))
    (e : ApiErr) (s : S) : String × S :=
  if isTokenLimitError e.message then
    quartersAttempt oracle now monthName content digestCache s
  else
    (errText monthName e.message, s)

/-- The two-half attempt (src/summarize.js lines 841-899): summarize each
half of `splitMonthContent content`, concatenate the trimmed half-summaries,
derive the digest, cache the concatenation.  A failing half call goes to
`onSplitError`. -/
def twoHalvesAttempt (oracle : Nat → Except ApiErr String) (now : Int)
    (monthName content : String) (digestCache : Option (Option DigestData)) (s : S) :
    String × S :=
  match callApi oracle CallTag.firstHalf
      ("# " ++ monthName ++ " (First Half)\n\n" ++ (splitMonthContent content).fst) s with
  | (Except.error e, s1) => onSplitError oracle now monthName content digestCache e s1
  | (Except.ok raw1, s1) =>
    match callApi oracle CallTag.secondHalf
        ("# " ++ monthName ++ " (Second Half)\n\n" ++ (splitMonthContent content).snd) s1 with
    | (Except.error e, s2) => onSplitError oracle now monthName content digestCache e s2
    | (Except.ok raw2, s2) =>
      let combinedSummary := strTrim raw1 ++ strTrim raw2
      let formatted := headPat monthName ++ combinedSummary
      let os := generateOneSentenceSummary now oracle formatted digestCache s2
      (addTldr monthName os.fst formatted, { os.snd with fullWrite := some formatted })

/-- `generateMonthSummary` (src/summarize.js lines 753-992).  Inputs: the
current time, the month's display name, the month file's content, the two
parsed cache files and the client oracle.  Output: the returned text block
and the effect state (calls made, cache writes). -/
def generateMonthSummary (now : Int) (monthName content : String)
    (fullCache : Option (Option CacheData)) (digestCache : Option (Option DigestData))
    (oracle : Nat → Except ApiErr String) : String × S :=
  match getCachedSummary now fullCache with
  | some cachedSummary =>
    let os := generateOneSentenceSummary now oracle cachedSummary digestCache initS
    (addTldr monthName os.fst cachedSummary, os.snd)
  | none =>
    match callApi oracle CallTag.whole ("# " ++ monthName ++ "\n\n" ++ content) initS with
    | (Except.ok raw, s1) =>
      if (strTrim raw).length < 10 then
        (placeholderText monthName, { s1 with fullWrite := some (placeholderText monthName) })
      else
        let formatted := headPat monthName ++ strTrim raw
        let os := generateOneSentenceSummary now oracle formatted digestCache s1
        (addTldr monthName os.fst formatted, { os.snd with fullWrite := some formatted })
    | (Except.error e, s1) =>
      if isTokenLimitError e.message then
        twoHalvesAttempt oracle now monthName content digestCache s1
      else
        (errText monthName e.message, s1)

/-! ## Pure string and list lemmas -/

theorem splitNlChars_ne_nil (l : List Char) : splitNlChars l ≠ [] := by
  match l with
  | [] => simp [splitNlChars]
  | c :: cs =>
    unfold splitNlChars
    by_cases h : c = '\n'
    · simp [h]
    · simp only [h, if_false]
      rcases hs : splitNlChars cs with _ | ⟨h1, t1⟩ <;> simp

theorem splitLines_length_pos (s : String) : 0 < (splitLines s).length := by
  unfold splitLines
  rw [List.length_map]
  exact List.length_pos.mpr (splitNlChars_ne_nil s.data)

theorem findBoundary_some {ls : List String} {r : Nat} (h : findBoundary ls = some r) :
    r < ls.length ∧ isBoundaryLine (ls.getD r "") = true ∧
      ∀ j, j < r → isBoundaryLine (ls.getD j "") = false := by
  induction ls generalizing r with
  | nil => simp [findBoundary] at h
  | cons l ls ih =>
    rw [findBoundary] at h
    by_cases hb : isBoundaryLine l = true
    · rw [if_pos hb] at h
      injection h with h'
      subst h'
      refine ⟨by simp, by simpa using hb, ?_⟩
      intro j hj; omega
    · rw [if_neg hb, Option.map_eq_some'] at h
      obtain ⟨r', hr', hr2⟩ := h
      subst hr2
      obtain ⟨h1, h2, h3⟩ := ih hr'
      refine ⟨by simpa using h1, by simpa using h2, ?_⟩
      intro j hj
      match j with
      | 0 =>
        rw [List.getD_cons_zero]
        exact Bool.eq_false_iff.mpr (fun hc => hb hc)
      | j + 1 =>
        rw [List.getD_cons_succ]
        exact h3 j (by omega)

theorem findBoundary_none {ls : List String} (h : findBoundary ls = none) :
    ∀ j, j < ls.length → isBoundaryLine (ls.getD j "") = false := by
  induction ls with
  | nil => intro j hj; simp at hj
  | cons l ls ih =>
    rw [findBoundary] at h
    by_cases hb : isBoundaryLine l = true
    · rw [if_pos hb] at h
      exact absurd h (by simp)
    · rw [if_neg hb, Option.map_eq_none'] at h
      intro j hj
      match j with
      | 0 =>
        rw [List.getD_cons_zero]
        exact Bool.eq_false_iff.mpr (fun hc => hb hc)
      | j + 1 =>
        rw [List.getD_cons_succ]
        exact ih h j (by simpa using hj)

theorem getD_drop {α : Type} (d : α) (l : List α) (m j : Nat) :
    (l.drop m).getD j d = l.getD (m + j) d := by
  induction m generalizing l with
  | zero => simp
  | succ m ih =>
    match l with
    | [] => simp
    | a :: l =>
      rw [List.drop_succ_cons, ih, Nat.succ_add, List.getD_cons_succ]

theorem take_sub_append_drop {α : Type} {a b : Nat} (h : a ≤ b) (l : List α) :
    (l.drop a).take (b - a) ++ l.drop b = l.drop a := by
  have hd : l.drop b = (l.drop a).drop (b - a) := by
    rw [List.drop_drop]; congr 1; omega
  rw [hd, List.take_append_drop]

theorem quarterSplitPoint_lb (lines : List String) (q : Nat) :
    q * (lines.length / 4) ≤ quarterSplitPoint lines q := by
  unfold quarterSplitPoint
  rcases h : findBoundary ((lines.drop (q * (lines.length / 4))).take
      (min (q * (lines.length / 4) + lines.length / 4) lines.length
        - q * (lines.length / 4))) with _ | j
  · exact Nat.le_refl _
  · exact Nat.le_add_right _ _

theorem quarterSplitPoint_ub (lines : List String) (q : Nat) :
    quarterSplitPoint lines q ≤ (q + 1) * (lines.length / 4) := by
  have hq : (q + 1) * (lines.length / 4) = q * (lines.length / 4) + lines.length / 4 := by
    ring
  unfold quarterSplitPoint
  rcases h : findBoundary ((lines.drop (q * (lines.length / 4))).take
      (min (q * (lines.length / 4) + lines.length / 4) lines.length
        - q * (lines.length / 4))) with _ | j
  · show q * (lines.length / 4) ≤ (q + 1) * (lines.length / 4)
    omega
  · show q * (lines.length / 4) + j ≤ (q + 1) * (lines.length / 4)
    have hj := (findBoundary_some h).1
    rw [List.length_take, List.length_drop] at hj
    have hmin : min (q * (lines.length / 4) + lines.length / 4) lines.length ≤
        q * (lines.length / 4) + lines.length / 4 := Nat.min_le_left _ _
    omega

theorem quarterSplitPoint_mono (lines : List String) (q : Nat) :
    quarterSplitPoint lines q ≤ quarterSplitPoint lines (q + 1) :=
  (quarterSplitPoint_ub lines q).trans (quarterSplitPoint_lb lines (q + 1))

theorem splitIndexTwo_lt {lines : List String} (h : lines ≠ []) :
    splitIndexTwo lines < lines.length := by
  have hl : 0 < lines.length := List.length_pos.mpr h
  unfold splitIndexTwo
  rcases hb : findBoundary (lines.drop (lines.length / 2)) with _ | j
  · show lines.length / 2 < lines.length
    omega
  · show lines.length / 2 + j < lines.length
    have hj := (findBoundary_some hb).1
    rw [List.length_drop] at hj
    omega

theorem isPrefixOf_append (p rest : List Char) : p.isPrefixOf (p ++ rest) = true :=
  List.isPrefixOf_iff_prefix.mpr (List.prefix_append p rest)

theorem eq_append_of_isPrefixOf {p s : List Char} (h : p.isPrefixOf s = true) :
    s = p ++ s.drop p.length := by
  obtain ⟨t, rfl⟩ := List.isPrefixOf_iff_prefix.mp h
  rw [List.drop_left]

theorem isPrefixOf_of_append {a b s : List Char} (h : (a ++ b).isPrefixOf s = true) :
    a.isPrefixOf s = true :=
  List.isPrefixOf_iff_prefix.mpr ((List.prefix_append a b).trans
    (List.isPrefixOf_iff_prefix.mp h))

theorem replaceFirstL_pos {pat s : List Char} (rep : List Char)
    (h : pat.isPrefixOf s = true) :
    replaceFirstL pat rep s = rep ++ s.drop pat.length := by
  match s with
  | [] =>
    unfold replaceFirstL
    rw [if_pos h]
    simp
  | c :: cs =>
    unfold replaceFirstL
    rw [if_pos h]

theorem strStarts_append (p rest : String) : strStarts p (p ++ rest) = true := by
  unfold strStarts
  rw [String.data_append]
  exact isPrefixOf_append _ _

theorem strStarts_weaken {a b s : String} (h : strStarts (a ++ b) s = true) :
    strStarts a s = true := by
  unfold strStarts at h ⊢
  rw [String.data_append] at h
  exact isPrefixOf_of_append h

theorem strStarts_ne_empty {p s : String} (hp : p.data ≠ []) (h : strStarts p s = true) :
    s ≠ "" := by
  intro hs
  subst hs
  unfold strStarts at h
  have := eq_append_of_isPrefixOf h
  simp at this
  exact hp this

theorem replaceFirst_data {s pat : String} (rep : String) (h : strStarts pat s = true) :
    (replaceFirst s pat rep).data = rep.data ++ s.data.drop pat.data.length := by
  unfold replaceFirst
  exact replaceFirstL_pos rep.data h

/-! ## Properties of the splitters -/

theorem splitIndexTwo_some {lines : List String} {j : Nat}
    (hb : findBoundary (lines.drop (lines.length / 2)) = some j) :
    splitIndexTwo lines = lines.length / 2 + j := by
  unfold splitIndexTwo
  rw [hb]

theorem splitIndexTwo_none {lines : List String}
    (hb : findBoundary (lines.drop (lines.length / 2)) = none) :
    splitIndexTwo lines = lines.length / 2 := by
  unfold splitIndexTwo
  rw [hb]

theorem splitIndexTwo_of_boundary {lines : List String}
    (h : ∃ j, lines.length / 2 ≤ j ∧ j < lines.length ∧
      isBoundaryLine (lines.getD j "") = true) :
    lines.length / 2 ≤ splitIndexTwo lines ∧ splitIndexTwo lines < lines.length ∧
      isBoundaryLine (lines.getD (splitIndexTwo lines) "") = true ∧
      ∀ j, lines.length / 2 ≤ j → j < splitIndexTwo lines →
        isBoundaryLine (lines.getD j "") = false := by
  obtain ⟨j0, hj0, hj0l, hj0b⟩ := h
  rcases hb : findBoundary (lines.drop (lines.length / 2)) with _ | j
  · exfalso
    have hnone := findBoundary_none hb (j0 - lines.length / 2)
      (by rw [List.length_drop]; omega)
    rw [getD_drop, Nat.add_sub_cancel' hj0] at hnone
    rw [hj0b] at hnone
    exact Bool.true_eq_false.mp hnone
  · obtain ⟨h1, h2, h3⟩ := findBoundary_some hb
    rw [List.length_drop] at h1
    rw [getD_drop] at h2
    rw [splitIndexTwo_some hb]
    refine ⟨by omega, by omega, h2, ?_⟩
    intro i hi1 hi2
    have := h3 (i - lines.length / 2) (by omega)
    rwa [getD_drop, Nat.add_sub_cancel' hi1] at this

theorem splitIndexTwo_of_no_boundary {lines : List String}
    (h : ∀ j, lines.length / 2 ≤ j → j < lines.length →
      isBoundaryLine (lines.getD j "") = false) :
    splitIndexTwo lines = lines.length / 2 := by
  rcases hb : findBoundary (lines.drop (lines.length / 2)) with _ | j
  · exact splitIndexTwo_none hb
  · exfalso
    obtain ⟨h1, h2, _⟩ := findBoundary_some hb
    rw [List.length_drop] at h1
    rw [getD_drop] at h2
    have := h (lines.length / 2 + j) (by omega) (by omega)
    rw [h2] at this
    exact Bool.true_eq_false.mp this

/-- C5: `splitMonthContent` produces two segments whose concatenated lines
equal the document's lines exactly — the first half is the lines before the
split index and the second half the lines from the split index on — where
the split index is the first section-boundary line (a line starting with
`"## "`) at or after the midpoint, or the midpoint itself if no boundary
line exists at or after the midpoint. -/
theorem splitMonthContent_spec (content : String) :
    splitMonthContent content =
      (joinNl ((splitLines content).take (splitIndexTwo (splitLines content))),
       joinNl ((splitLines content).drop (splitIndexTwo (splitLines content)))) ∧
    (splitLines content).take (splitIndexTwo (splitLines content)) ++
      (splitLines content).drop (splitIndexTwo (splitLines content)) = splitLines content ∧
    ((∃ j, (splitLines content).length / 2 ≤ j ∧ j < (splitLines content).length ∧
        isBoundaryLine ((splitLines content).getD j "") = true) →
      ((splitLines content).length / 2 ≤ splitIndexTwo (splitLines content) ∧
        isBoundaryLine
          ((splitLines content).getD (splitIndexTwo (splitLines content)) "") = true ∧
        ∀ j, (splitLines content).length / 2 ≤ j → j < splitIndexTwo (splitLines content) →
          isBoundaryLine ((splitLines content).getD j "") = false)) ∧
    ((∀ j, (splitLines content).length / 2 ≤ j → j < (splitLines content).length →
        isBoundaryLine ((splitLines content).getD j "") = false) →
      splitIndexTwo (splitLines content) = (splitLines content).length / 2) := by
  refine ⟨rfl, List.take_append_drop _ _, ?_, splitIndexTwo_of_no_boundary⟩
  intro h
  obtain ⟨h1, _, h3, h4⟩ := splitIndexTwo_of_boundary h
  exact ⟨h1, h3, h4⟩

/-- C4: `splitMonthContentIntoFour` cuts at the three quarter split points,
which are monotonically non-decreasing, and the four segments' line lists
concatenate back to exactly the document's lines (no overlap, no gap). -/
theorem splitMonthContentIntoFour_spec (content : String) :
    splitMonthContentIntoFour content =
      [ joinNl ((splitLines content).take (quarterSplitPoint (splitLines content) 1)),
        joinNl (((splitLines content).drop (quarterSplitPoint (splitLines content) 1)).take
          (quarterSplitPoint (splitLines content) 2 - quarterSplitPoint (splitLines content) 1)),
        joinNl (((splitLines content).drop (quarterSplitPoint (splitLines content) 2)).take
          (quarterSplitPoint (splitLines content) 3 - quarterSplitPoint (splitLines content) 2)),
        joinNl ((splitLines content).drop (quarterSplitPoint (splitLines content) 3)) ] ∧
    quarterSplitPoint (splitLines content) 1 ≤ quarterSplitPoint (splitLines content) 2 ∧
    quarterSplitPoint (splitLines content) 2 ≤ quarterSplitPoint (splitLines content) 3 ∧
    (splitLines content).take (quarterSplitPoint (splitLines content) 1) ++
      (((splitLines content).drop (quarterSplitPoint (splitLines content) 1)).take
          (quarterSplitPoint (splitLines content) 2 - quarterSplitPoint (splitLines content) 1) ++
        (((splitLines content).drop (quarterSplitPoint (splitLines content) 2)).take
            (quarterSplitPoint (splitLines content) 3 - quarterSplitPoint (splitLines content) 2) ++
          (splitLines content).drop (quarterSplitPoint (splitLines content) 3))) =
      splitLines content := by
  have h12 : quarterSplitPoint (splitLines content) 1 ≤ quarterSplitPoint (splitLines content) 2 :=
    quarterSplitPoint_mono (splitLines content) 1
  have h23 : quarterSplitPoint (splitLines content) 2 ≤ quarterSplitPoint (splitLines content) 3 :=
    quarterSplitPoint_mono (splitLines content) 2
  refine ⟨rfl, h12, h23, ?_⟩
  rw [take_sub_append_drop h23, take_sub_append_drop h12, List.take_append_drop]

/-- C10: for every input string (even a single-line or empty document) the
split index chosen by `splitMonthContent` is strictly below the number of
lines, so the second segment keeps at least one line of the original. -/
theorem splitMonthContent_second_nonempty (content : String) :
    splitIndexTwo (splitLines content) < (splitLines content).length ∧
    0 < ((splitLines content).drop (splitIndexTwo (splitLines content))).length ∧
    splitMonthContent content =
      (joinNl ((splitLines content).take (splitIndexTwo (splitLines content))),
       joinNl ((splitLines content).drop (splitIndexTwo (splitLines content)))) := by
  have h1 : splitLines content ≠ [] :=
    List.ne_nil_of_length_pos (splitLines_length_pos content)
  have h2 := splitIndexTwo_lt h1
  have h3 : 0 < (splitLines content).length := splitLines_length_pos content
  refine ⟨h2, ?_, rfl⟩
  rw [List.length_drop]
  omega

/-! ## Properties of the cache -/

/-- C3: `getCachedSummary` returns the cached summary text exactly when the
record exists, parses, its age is at most the 7-day maximum (the boundary
age is still valid) and its summary has length at least 10; in every other
case it returns `none`. -/
theorem getCachedSummary_some_iff (now : Int) (file : Option (Option CacheData))
    (s : String) :
    getCachedSummary now file = some s ↔
      ∃ d, file = some (some d) ∧ now - d.timestamp ≤ maxAgeMs ∧
        d.summary = some s ∧ 10 ≤ s.length := by
  constructor
  · intro h
    match file with
    | none => simp [getCachedSummary] at h
    | some none => simp [getCachedSummary] at h
    | some (some d) =>
      refine ⟨d, rfl, ?_⟩
      simp only [getCachedSummary] at h
      by_cases hage : now - d.timestamp > maxAgeMs
      · rw [if_pos hage] at h
        exact absurd h (by simp)
      · rw [if_neg hage] at h
        match hs : d.summary with
        | none =>
          rw [hs] at h
          exact absurd h (by simp)
        | some t =>
          rw [hs] at h
          have h2 : (if t.length < 10 then none else some t) = some s := h
          by_cases hlen : t.length < 10
          · rw [if_pos hlen] at h2
            exact absurd h2 (by simp)
          · rw [if_neg hlen] at h2
            injection h2 with h'
            subst h'
            exact ⟨by omega, rfl, by omega⟩
  · rintro ⟨d, rfl, hage, hsum, hlen⟩
    simp only [getCachedSummary]
    rw [if_neg (by omega), hsum]
    show (if s.length < 10 then none else some s) = some s
    rw [if_neg (by omega)]

/-- C8: a cache file whose content fails to parse (modelled `some none`) makes
`getCachedSummary` return `none` — the same result as a missing cache file —
without throwing. -/
theorem getCachedSummary_corrupted (now : Int) :
    getCachedSummary now (some none) = none ∧
      getCachedSummary now (some none) = getCachedSummary now none :=
  ⟨rfl, rfl⟩

/-! ## Properties of the digest cache -/

theorem truthyStr_iff (o : Option String) :
    truthyStr o = true ↔ ∃ t, o = some t ∧ t ≠ "" := by
  cases o with
  | none => simp [truthyStr]
  | some t => simp [truthyStr]

/-- C9 (amended): a cached digest entry is reused exactly when its age is at
most 7 days and its `oneSentenceSummary` field is truthy (present and
non-empty); the code imposes no 10-character minimum on the digest.
Reuse is characterised by the effect state being returned unchanged (no API
call, no write), and on reuse the returned text is the cached digest. -/
theorem generateOneSentenceSummary_reuse_iff (now : Int)
    (oracle : Nat → Except ApiErr String) (fullSummary : String)
    (digestCache : Option (Option DigestData)) (s : S) :
    ((generateOneSentenceSummary now oracle fullSummary digestCache s).snd = s ↔
      ∃ d t, digestCache = some (some d) ∧ now - d.timestamp ≤ maxAgeMs ∧
        d.oneSentenceSummary = some t ∧ t ≠ "") ∧
    (∀ d t, digestCache = some (some d) → now - d.timestamp ≤ maxAgeMs →
      d.oneSentenceSummary = some t → t ≠ "" →
      generateOneSentenceSummary now oracle fullSummary digestCache s = (t, s)) := by
  have hregen : ∀ res : String × S,
      (match callApi oracle CallTag.digest (oneSentencePrompt fullSummary) s with
        | (Except.ok txt, s') => (strTrim txt, { s' with digestWrite := some (strTrim txt) })
        | (Except.error _, s') => ("Unable to generate summary.", s')) = res →
      res.snd.n = s.n + 1 := by
    intro res hres
    rcases ho : oracle s.n with e | txt
    · simp only [callApi, ho] at hres
      rw [← hres]
    · simp only [callApi, ho] at hres
      rw [← hres]
  rcases digestCache with _ | dOpt
  · constructor
    · constructor
      · intro h
        exfalso
        have h2 : (generateOneSentenceSummary now oracle fullSummary none s).snd.n =
            s.n + 1 := hregen _ rfl
        rw [h] at h2
        omega
      · rintro ⟨d, t, hdc, -⟩
        exact Option.noConfusion hdc
    · intro d t hdc
      exact absurd hdc (by simp)
  · rcases dOpt with _ | d
    · constructor
      · constructor
        · intro h
          exfalso
          have h2 : (generateOneSentenceSummary now oracle fullSummary (some none) s).snd.n =
              s.n + 1 := hregen _ rfl
          rw [h] at h2
          omega
        · rintro ⟨d, t, hdc, -⟩
          simp at hdc
      · intro d t hdc
        exact absurd hdc (by simp)
    · by_cases hcond : now - d.timestamp ≤ maxAgeMs ∧ truthyStr d.oneSentenceSummary = true
      · have hres : generateOneSentenceSummary now oracle fullSummary (some (some d)) s =
            (d.oneSentenceSummary.getD "", s) := by
          simp only [generateOneSentenceSummary, if_pos hcond]
        obtain ⟨t, ht, htne⟩ := (truthyStr_iff _).mp hcond.2
        constructor
        · constructor
          · intro _
            exact ⟨d, t, rfl, hcond.1, ht, htne⟩
          · intro _
            rw [hres]
        · intro d' t' hdc hage ht' htne'
          obtain rfl : d = d' := by injection hdc with h1; injection h1
          rw [hres, ht']
          rfl
      · have hres : generateOneSentenceSummary now oracle fullSummary (some (some d)) s =
            (match callApi oracle CallTag.digest (oneSentencePrompt fullSummary) s with
              | (Except.ok txt, s') => (strTrim txt, { s' with digestWrite := some (strTrim txt) })
              | (Except.error _, s') => ("Unable to generate summary.", s')) := by
          simp only [generateOneSentenceSummary, if_neg hcond]
        constructor
        · constructor
          · intro h
            exfalso
            have h2 : (generateOneSentenceSummary now oracle fullSummary
                (some (some d)) s).snd.n = s.n + 1 := by
              rw [hres]
              exact hregen _ rfl
            rw [h] at h2
            omega
          · rintro ⟨d', t, hdc, hage, ht, htne⟩
            obtain rfl : d = d' := by injection hdc with h1; injection h1
            exact absurd ⟨hage, (truthyStr_iff _).mpr ⟨t, ht, htne⟩⟩ hcond
        · intro d' t hdc hage ht htne
          obtain rfl : d = d' := by injection hdc with h1; injection h1
          exact absurd ⟨hage, (truthyStr_iff _).mpr ⟨t, ht, htne⟩⟩ hcond

/-- C9 counterexample: a fresh (age 0) digest entry whose text `"Short."` has
only 6 characters is reused as-is (the state is unchanged: no API call and no
write), refuting the claimed 10-character minimum for digest reuse. -/
theorem generateOneSentenceSummary_short_reused :
    generateOneSentenceSummary 0 (fun _ => Except.ok "regenerated digest text")
        "full summary" (some (some ⟨0, some "Short."⟩)) initS = ("Short.", initS) ∧
      ("Short." : String).length < 10 := by
  constructor
  · decide
  · decide

/-! ## Effect bookkeeping lemmas -/

theorem strExt {a b : String} (h : a.data = b.data) : a = b := by
  cases a
  cases b
  cases h
  rfl

theorem generateOneSentenceSummary_snd (now : Int) (oracle : Nat → Except ApiErr String)
    (fullSummary : String) (digestCache : Option (Option DigestData)) (s : S) :
    ∃ dw, (generateOneSentenceSummary now oracle fullSummary digestCache s).snd = s ∨
      (generateOneSentenceSummary now oracle fullSummary digestCache s).snd =
        { n := s.n + 1,
          calls := s.calls ++ [(CallTag.digest, oneSentencePrompt fullSummary)],
          fullWrite := s.fullWrite, digestWrite := dw } := by
  unfold generateOneSentenceSummary
  split
  · split
    · exact ⟨none, Or.inl rfl⟩
    · split
      · rename_i txt s' heq
        simp only [callApi] at heq
        injection heq with h1 h2
        refine ⟨some (strTrim txt), Or.inr ?_⟩
        rw [← h2]
      · rename_i e s' heq
        simp only [callApi] at heq
        injection heq with h1 h2
        refine ⟨s.digestWrite, Or.inr ?_⟩
        rw [← h2]
  · split
    · rename_i txt s' heq
      simp only [callApi] at heq
      injection heq with h1 h2
      refine ⟨some (strTrim txt), Or.inr ?_⟩
      rw [← h2]
    · rename_i e s' heq
      simp only [callApi] at heq
      injection heq with h1 h2
      refine ⟨s.digestWrite, Or.inr ?_⟩
      rw [← h2]

theorem generateOneSentenceSummary_fullWrite (now : Int)
    (oracle : Nat → Except ApiErr String) (fullSummary : String)
    (digestCache : Option (Option DigestData)) (s : S) :
    (generateOneSentenceSummary now oracle fullSummary digestCache s).snd.fullWrite =
      s.fullWrite := by
  obtain ⟨dw, h | h⟩ := generateOneSentenceSummary_snd now oracle fullSummary digestCache s
  · rw [h]
  · rw [h]

theorem generateOneSentenceSummary_calls (now : Int)
    (oracle : Nat → Except ApiErr String) (fullSummary : String)
    (digestCache : Option (Option DigestData)) (s : S) :
    (generateOneSentenceSummary now oracle fullSummary digestCache s).snd.calls = s.calls ∨
    (generateOneSentenceSummary now oracle fullSummary digestCache s).snd.calls =
      s.calls ++ [(CallTag.digest, oneSentencePrompt fullSummary)] := by
  obtain ⟨dw, h | h⟩ := generateOneSentenceSummary_snd now oracle fullSummary digestCache s
  · rw [h]
    exact Or.inl rfl
  · rw [h]
    exact Or.inr rfl

theorem combineFourSummaries_snd (oracle : Nat → Except ApiErr String)
    (summaries : List String) (monthName : String) (s : S) :
    (combineFourSummaries oracle summaries monthName s).snd =
      { n := s.n + 1,
        calls := s.calls ++ [(CallTag.combineFour, combineFourPrompt monthName summaries)],
        fullWrite := s.fullWrite, digestWrite := s.digestWrite } := by
  unfold combineFourSummaries
  split
  · rename_i c s' heq
    simp only [callApi] at heq
    injection heq with h1 h2
    rw [← h2]
  · rename_i e s' heq
    simp only [callApi] at heq
    injection heq with h1 h2
    rw [← h2]

theorem combineFourSummaries_fst (oracle : Nat → Except ApiErr String)
    (summaries : List String) (monthName : String) (s : S) :
    (combineFourSummaries oracle summaries monthName s).fst =
      match oracle s.n with
      | Except.ok c => strTrim c
      | Except.error _ => String.intercalate "\n\n" summaries := by
  unfold combineFourSummaries
  split
  · rename_i c s' heq
    simp only [callApi] at heq
    injection heq with h1 h2
    rw [h1]
  · rename_i e s' heq
    simp only [callApi] at heq
    injection heq with h1 h2
    rw [h1]

theorem addTldr_eq (m one x : String) :
    addTldr m one (headPat m ++ x) =
      headPat m ++ "**tl;dr:** " ++ one ++ "\n\n" ++ x := by
  apply strExt
  unfold addTldr
  rw [replaceFirst_data _ (strStarts_append _ _), String.data_append (headPat m) x,
    List.drop_left]
  simp only [String.data_append, List.append_assoc]

/-! ## Every branch yields a headed, non-empty text block -/

theorem headed_weaken {m t : String} (h : strStarts (headPat m) t = true) :
    strStarts ("## " ++ m) t = true := by
  unfold headPat at h
  exact strStarts_weaken h

theorem headingData_ne (m : String) : ("## " ++ m).data ≠ [] := by
  rw [String.data_append]
  have h3 : "## ".data = ['#', '#', ' '] := rfl
  rw [h3]
  simp

theorem addTldr_headed {m f : String} (one : String)
    (h : strStarts (headPat m) f = true) :
    strStarts (headPat m) (addTldr m one f) = true := by
  unfold addTldr strStarts
  rw [replaceFirst_data _ h, String.data_append, List.append_assoc]
  exact isPrefixOf_append _ _

theorem errText_headed (m msg : String) : strStarts (headPat m) (errText m msg) = true :=
  strStarts_append (headPat m) ("Error generating summary: " ++ msg)

theorem quartersAttempt_headed (oracle : Nat → Except ApiErr String) (now : Int)
    (m content : String) (dc : Option (Option DigestData)) (s : S) :
    strStarts (headPat m) (quartersAttempt oracle now m content dc s).fst = true := by
  unfold quartersAttempt
  split
  · exact errText_headed m _
  · split
    · exact errText_headed m _
    · split
      · exact errText_headed m _
      · split
        · exact errText_headed m _
        · exact addTldr_headed _ (strStarts_append _ _)

theorem onSplitError_headed (oracle : Nat → Except ApiErr String) (now : Int)
    (m content : String) (dc : Option (Option DigestData)) (e : ApiErr) (s : S) :
    strStarts (headPat m) (onSplitError oracle now m content dc e s).fst = true := by
  unfold onSplitError
  split
  · exact quartersAttempt_headed oracle now m content dc s
  · exact errText_headed m _

theorem twoHalvesAttempt_headed (oracle : Nat → Except ApiErr String) (now : Int)
    (m content : String) (dc : Option (Option DigestData)) (s : S) :
    strStarts (headPat m) (twoHalvesAttempt oracle now m content dc s).fst = true := by
  unfold twoHalvesAttempt
  split
  · exact onSplitError_headed oracle now m content dc _ _
  · split
    · exact onSplitError_headed oracle now m content dc _ _
    · exact addTldr_headed _ (strStarts_append _ _)

/-- C2: whenever the content file exists (its text is `content`) and any
valid cached summary is well-formed (begins with the month's heading block),
`generateMonthSummary` returns a non-empty text beginning with the heading
line `## <month name>` in every branch — real summary with digest,
placeholder, or inline error — and, being a total function, never
propagates an exception. -/
theorem generateMonthSummary_headed (now : Int) (monthName content : String)
    (fullCache : Option (Option CacheData)) (digestCache : Option (Option DigestData))
    (oracle : Nat → Except ApiErr String)
    (hwf : ∀ c, getCachedSummary now fullCache = some c →
      strStarts (headPat monthName) c = true) :
    strStarts ("## " ++ monthName)
      (generateMonthSummary now monthName content fullCache digestCache oracle).fst = true ∧
    (generateMonthSummary now monthName content fullCache digestCache oracle).fst ≠ "" := by
  have key : strStarts (headPat monthName)
      (generateMonthSummary now monthName content fullCache digestCache oracle).fst = true := by
    unfold generateMonthSummary
    split
    · rename_i c hcc
      exact addTldr_headed _ (hwf c hcc)
    · split
      · split
        · exact strStarts_append _ _
        · exact addTldr_headed _ (strStarts_append _ _)
      · split
        · exact twoHalvesAttempt_headed oracle now monthName content digestCache _
        · exact errText_headed monthName _
  exact ⟨headed_weaken key, strStarts_ne_empty (headingData_ne monthName) (headed_weaken key)⟩

/-- C2 witness: a concrete successful run at a concrete month. -/
theorem generateMonthSummary_headed_witness :
    (∀ c, getCachedSummary 0 none = some c →
      strStarts (headPat "February 2021") c = true) ∧
    strStarts ("## " ++ "February 2021")
      (generateMonthSummary 0 "February 2021" "hello" none none
        (fun _ => Except.ok "This is a long enough summary.")).fst = true ∧
    (generateMonthSummary 0 "February 2021" "hello" none none
      (fun _ => Except.ok "This is a long enough summary.")).fst ≠ "" := by
  refine ⟨fun c h => Option.noConfusion h, ?_, ?_⟩
  · exact (generateMonthSummary_headed 0 "February 2021" "hello" none none
      (fun _ => Except.ok "This is a long enough summary.")
      (fun c h => Option.noConfusion h)).1
  · exact (generateMonthSummary_headed 0 "February 2021" "hello" none none
      (fun _ => Except.ok "This is a long enough summary.")
      (fun c h => Option.noConfusion h)).2

/-! ## The terminal service-error branch -/

/-- C7: when the whole-document call fails with a non-size-limit error the
run terminates for this document with the inline error block — the heading
followed by `Error generating summary: ` and the error's message — after
exactly the one whole-document call and with no cache write of either kind. -/
theorem generateMonthSummary_serviceError (now : Int) (monthName content : String)
    (fullCache : Option (Option CacheData)) (digestCache : Option (Option DigestData))
    (oracle : Nat → Except ApiErr String) (e : ApiErr)
    (hc : getCachedSummary now fullCache = none)
    (h0 : oracle 0 = Except.error e)
    (ht : isTokenLimitError e.message = false) :
    generateMonthSummary now monthName content fullCache digestCache oracle =
      (errText monthName e.message,
       { n := 1, calls := [(CallTag.whole, "# " ++ monthName ++ "\n\n" ++ content)],
         fullWrite := none, digestWrite := none }) := by
  simp [generateMonthSummary, hc, callApi, initS, h0, ht]

/-- C7 witness: a concrete service error `"boom"` at a concrete month. -/
theorem generateMonthSummary_serviceError_witness :
    getCachedSummary 0 none = none ∧
    (fun _ : Nat => (Except.error ⟨"boom"⟩ : Except ApiErr String)) 0 =
      Except.error ⟨"boom"⟩ ∧
    isTokenLimitError "boom" = false ∧
    generateMonthSummary 0 "February 2021" "hello" none none
        (fun _ => Except.error ⟨"boom"⟩) =
      (errText "February 2021" "boom",
       { n := 1, calls := [(CallTag.whole, "# February 2021\n\nhello")],
         fullWrite := none, digestWrite := none }) :=
  ⟨rfl, rfl, by decide,
    generateMonthSummary_serviceError 0 "February 2021" "hello" none none
      (fun _ => Except.error ⟨"boom"⟩) ⟨"boom"⟩ rfl rfl (by decide)⟩

/-! ## The trivial-output placeholder branch -/

theorem getCachedSummary_hit {now : Int} {d : CacheData} {s : String}
    (hage : now - d.timestamp ≤ maxAgeMs) (hsum : d.summary = some s)
    (hlen : 10 ≤ s.length) :
    getCachedSummary now (some (some d)) = some s := by
  simp only [getCachedSummary]
  rw [if_neg (by omega), hsum]
  show (if s.length < 10 then none else some s) = some s
  rw [if_neg (by omega)]

theorem placeholderText_len (m : String) : 10 ≤ (placeholderText m).length := by
  unfold placeholderText
  rw [String.length_append]
  have h : 10 ≤ ("No significant activity recorded for this month." : String).length := by
    decide
  omega

/-- C6 (amended): when there is no valid cache entry and the whole-document
call succeeds with a trimmed output shorter than 10 characters,
`generateMonthSummary` returns the fixed placeholder under the month's
heading and writes it to the cache, and a subsequent run within the cache
window is a cache hit — it issues no fresh full-document summarization call
and writes no summary cache entry — though that cached run may still issue
one digest (one-sentence) call, since the placeholder run cached no digest. -/
theorem generateMonthSummary_placeholder (now now2 tw : Int) (monthName content : String)
    (fullCache : Option (Option CacheData))
    (digestCache digestCache2 : Option (Option DigestData))
    (oracle oracle2 : Nat → Except ApiErr String) (raw : String)
    (hc : getCachedSummary now fullCache = none)
    (h0 : oracle 0 = Except.ok raw)
    (hlen : (strTrim raw).length < 10)
    (h7 : now2 - tw ≤ maxAgeMs) :
    generateMonthSummary now monthName content fullCache digestCache oracle =
      (placeholderText monthName,
       { n := 1, calls := [(CallTag.whole, "# " ++ monthName ++ "\n\n" ++ content)],
         fullWrite := some (placeholderText monthName), digestWrite := none }) ∧
    getCachedSummary now2 (some (some ⟨tw, some (placeholderText monthName)⟩)) =
      some (placeholderText monthName) ∧
    ((generateMonthSummary now2 monthName content
        (some (some ⟨tw, some (placeholderText monthName)⟩))
        digestCache2 oracle2).snd.calls.map Prod.fst = [] ∨
      (generateMonthSummary now2 monthName content
        (some (some ⟨tw, some (placeholderText monthName)⟩))
        digestCache2 oracle2).snd.calls.map Prod.fst = [CallTag.digest]) ∧
    (generateMonthSummary now2 monthName content
      (some (some ⟨tw, some (placeholderText monthName)⟩))
      digestCache2 oracle2).snd.fullWrite = none := by
  have hhit : getCachedSummary now2 (some (some ⟨tw, some (placeholderText monthName)⟩)) =
      some (placeholderText monthName) :=
    getCachedSummary_hit h7 rfl (placeholderText_len monthName)
  have hrun2 : generateMonthSummary now2 monthName content
      (some (some ⟨tw, some (placeholderText monthName)⟩)) digestCache2 oracle2 =
      (addTldr monthName
        (generateOneSentenceSummary now2 oracle2 (placeholderText monthName)
          digestCache2 initS).fst (placeholderText monthName),
       (generateOneSentenceSummary now2 oracle2 (placeholderText monthName)
          digestCache2 initS).snd) := by
    unfold generateMonthSummary
    rw [hhit]
  refine ⟨?_, hhit, ?_, ?_⟩
  · simp [generateMonthSummary, hc, callApi, initS, h0, hlen]
  · rw [hrun2]
    rcases generateOneSentenceSummary_calls now2 oracle2 (placeholderText monthName)
        digestCache2 initS with h | h
    · left
      rw [h]
      rfl
    · right
      rw [h]
      rfl
  · rw [hrun2]
    exact generateOneSentenceSummary_fullWrite now2 oracle2 _ digestCache2 initS

/-- C6 counterexample: after a placeholder run (whole-document response `" "`)
the placeholder is cached, and the subsequent run is indeed a cache hit — but
it performs one digest API call (the placeholder run cached no digest), so
the run is not free of fresh summarization calls as the claim states. -/
theorem generateMonthSummary_placeholder_second_run_calls :
    (generateMonthSummary 0 "February 2021" "hello" none none
      (fun _ => Except.ok " ")).fst = placeholderText "February 2021" ∧
    (generateMonthSummary 0 "February 2021" "hello" none none
      (fun _ => Except.ok " ")).snd.fullWrite = some (placeholderText "February 2021") ∧
    getCachedSummary 0 (some (some ⟨0, some (placeholderText "February 2021")⟩)) =
      some (placeholderText "February 2021") ∧
    (generateMonthSummary 0 "February 2021" "hello"
      (some (some ⟨0, some (placeholderText "February 2021")⟩)) none
      (fun _ => Except.ok "A one-sentence digest.")).snd.calls.map Prod.fst =
      [CallTag.digest] := by
  refine ⟨?_, ?_, ?_, ?_⟩
  · decide
  · decide
  · decide
  · decide

/-- C6 witness: a concrete placeholder run followed by a concrete cached run. -/
theorem generateMonthSummary_placeholder_witness :
    getCachedSummary 0 none = none ∧
    (fun _ : Nat => (Except.ok " " : Except ApiErr String)) 0 = Except.ok " " ∧
    (strTrim " ").length < 10 ∧
    (5 : Int) - 0 ≤ maxAgeMs ∧
    (generateMonthSummary 0 "February 2021" "hello" none none
        (fun _ => Except.ok " ") =
      (placeholderText "February 2021",
       { n := 1, calls := [(CallTag.whole, "# February 2021\n\nhello")],
         fullWrite := some (placeholderText "February 2021"), digestWrite := none }) ∧
    getCachedSummary 5 (some (some ⟨0, some (placeholderText "February 2021")⟩)) =
      some (placeholderText "February 2021") ∧
    ((generateMonthSummary 5 "February 2021" "hello"
        (some (some ⟨0, some (placeholderText "February 2021")⟩)) none
        (fun _ => Except.ok "A digest sentence.")).snd.calls.map Prod.fst = [] ∨
      (generateMonthSummary 5 "February 2021" "hello"
        (some (some ⟨0, some (placeholderText "February 2021")⟩)) none
        (fun _ => Except.ok "A digest sentence.")).snd.calls.map Prod.fst =
        [CallTag.digest]) ∧
    (generateMonthSummary 5 "February 2021" "hello"
      (some (some ⟨0, some (placeholderText "February 2021")⟩)) none
      (fun _ => Except.ok "A digest sentence.")).snd.fullWrite = none) :=
  ⟨rfl, rfl, by decide, by decide,
    generateMonthSummary_placeholder 0 5 0 "February 2021" "hello" none none none
      (fun _ => Except.ok " ") (fun _ => Except.ok "A digest sentence.") " "
      rfl rfl (by decide) (by decide)⟩

/-! ## The four-part escalation path -/

theorem afterQuarters_spec (oracle : Nat → Except ApiErr String) (now : Int)
    (m : String) (dc : Option (Option DigestData)) (qs : List String) (s : S) :
    ∃ one rest,
      (afterQuarters oracle now m dc qs s).fst =
        headPat m ++ "**tl;dr:** " ++ one ++ "\n\n" ++
          (match oracle s.n with
            | Except.ok c => strTrim c
            | Except.error _ => String.intercalate "\n\n" qs) ∧
      (afterQuarters oracle now m dc qs s).snd.fullWrite =
        some (headPat m ++
          (match oracle s.n with
            | Except.ok c => strTrim c
            | Except.error _ => String.intercalate "\n\n" qs)) ∧
      (afterQuarters oracle now m dc qs s).snd.calls =
        s.calls ++ [(CallTag.combineFour, combineFourPrompt m qs)] ++ rest ∧
      (rest = [] ∨ ∃ p, rest = [(CallTag.digest, p)]) := by
  have hfst : (afterQuarters oracle now m dc qs s).fst =
      addTldr m (generateOneSentenceSummary now oracle
          (headPat m ++ (combineFourSummaries oracle qs m s).fst) dc
          (combineFourSummaries oracle qs m s).snd).fst
        (headPat m ++ (combineFourSummaries oracle qs m s).fst) := rfl
  have hsw : (afterQuarters oracle now m dc qs s).snd.fullWrite =
      some (headPat m ++ (combineFourSummaries oracle qs m s).fst) := rfl
  have hsc : (afterQuarters oracle now m dc qs s).snd.calls =
      (generateOneSentenceSummary now oracle
        (headPat m ++ (combineFourSummaries oracle qs m s).fst) dc
        (combineFourSummaries oracle qs m s).snd).snd.calls := rfl
  have hc2 : (combineFourSummaries oracle qs m s).snd.calls =
      s.calls ++ [(CallTag.combineFour, combineFourPrompt m qs)] := by
    rw [combineFourSummaries_snd]
  have hcf := combineFourSummaries_fst oracle qs m s
  rcases generateOneSentenceSummary_calls now oracle
      (headPat m ++ (combineFourSummaries oracle qs m s).fst) dc
      (combineFourSummaries oracle qs m s).snd with hgc | hgc
  · refine ⟨(generateOneSentenceSummary now oracle
        (headPat m ++ (combineFourSummaries oracle qs m s).fst) dc
        (combineFourSummaries oracle qs m s).snd).fst, [], ?_, ?_, ?_, Or.inl rfl⟩
    · rw [hfst, addTldr_eq, hcf]
    · rw [hsw, hcf]
    · rw [hsc, hgc, hc2]
      simp
  · refine ⟨(generateOneSentenceSummary now oracle
        (headPat m ++ (combineFourSummaries oracle qs m s).fst) dc
        (combineFourSummaries oracle qs m s).snd).fst,
      [(CallTag.digest,
        oneSentencePrompt (headPat m ++ (combineFourSummaries oracle qs m s).fst))],
      ?_, ?_, ?_, Or.inr ⟨_, rfl⟩⟩
    · rw [hfst, addTldr_eq, hcf]
    · rw [hsw, hcf]
    · rw [hsc, hgc, hc2]

theorem quartersAttempt_success (oracle : Nat → Except ApiErr String) (now : Int)
    (m content : String) (dc : Option (Option DigestData)) (s : S)
    (q0 q1 q2 q3 : String)
    (hq0 : oracle s.n = Except.ok q0) (hq1 : oracle (s.n + 1) = Except.ok q1)
    (hq2 : oracle (s.n + 2) = Except.ok q2) (hq3 : oracle (s.n + 3) = Except.ok q3) :
    ∃ one rest,
      (quartersAttempt oracle now m content dc s).fst =
        headPat m ++ "**tl;dr:** " ++ one ++ "\n\n" ++
          (match oracle (s.n + 4) with
            | Except.ok c => strTrim c
            | Except.error _ =>
                String.intercalate "\n\n" [strTrim q0, strTrim q1, strTrim q2, strTrim q3]) ∧
      (quartersAttempt oracle now m content dc s).snd.fullWrite =
        some (headPat m ++
          (match oracle (s.n + 4) with
            | Except.ok c => strTrim c
            | Except.error _ =>
                String.intercalate "\n\n" [strTrim q0, strTrim q1, strTrim q2, strTrim q3])) ∧
      (quartersAttempt oracle now m content dc s).snd.calls =
        s.calls ++
          [(CallTag.quarter 0, "# " ++ m ++ " (First Quarter)\n\n" ++
              (splitMonthContentIntoFour content).getD 0 ""),
           (CallTag.quarter 1, "# " ++ m ++ " (Second Quarter)\n\n" ++
              (splitMonthContentIntoFour content).getD 1 ""),
           (CallTag.quarter 2, "# " ++ m ++ " (Third Quarter)\n\n" ++
              (splitMonthContentIntoFour content).getD 2 ""),
           (CallTag.quarter 3, "# " ++ m ++ " (Fourth Quarter)\n\n" ++
              (splitMonthContentIntoFour content).getD 3 ""),
           (CallTag.combineFour,
              combineFourPrompt m [strTrim q0, strTrim q1, strTrim q2, strTrim q3])] ++
          rest ∧
      (rest = [] ∨ ∃ p, rest = [(CallTag.digest, p)]) := by
  have hred : quartersAttempt oracle now m content dc s =
      afterQuarters oracle now m dc [strTrim q0, strTrim q1, strTrim q2, strTrim q3]
        { n := s.n + 4,
          calls := s.calls ++
            [(CallTag.quarter 0, "# " ++ m ++ " (First Quarter)\n\n" ++
                (splitMonthContentIntoFour content).getD 0 ""),
             (CallTag.quarter 1, "# " ++ m ++ " (Second Quarter)\n\n" ++
                (splitMonthContentIntoFour content).getD 1 ""),
             (CallTag.quarter 2, "# " ++ m ++ " (Third Quarter)\n\n" ++
                (splitMonthContentIntoFour content).getD 2 ""),
             (CallTag.quarter 3, "# " ++ m ++ " (Fourth Quarter)\n\n" ++
                (splitMonthContentIntoFour content).getD 3 "")],
          fullWrite := s.fullWrite, digestWrite := s.digestWrite } := by
    unfold quartersAttempt
    simp only [callApi, hq0, hq1, hq2, hq3, List.append_assoc, List.singleton_append,
      List.cons_append, List.nil_append]
  obtain ⟨one, rest, h1, h2, h3, h4⟩ := afterQuarters_spec oracle now m dc
    [strTrim q0, strTrim q1, strTrim q2, strTrim q3]
    { n := s.n + 4,
      calls := s.calls ++
        [(CallTag.quarter 0, "# " ++ m ++ " (First Quarter)\n\n" ++
            (splitMonthContentIntoFour content).getD 0 ""),
         (CallTag.quarter 1, "# " ++ m ++ " (Second Quarter)\n\n" ++
            (splitMonthContentIntoFour content).getD 1 ""),
         (CallTag.quarter 2, "# " ++ m ++ " (Third Quarter)\n\n" ++
            (splitMonthContentIntoFour content).getD 2 ""),
         (CallTag.quarter 3, "# " ++ m ++ " (Fourth Quarter)\n\n" ++
            (splitMonthContentIntoFour content).getD 3 "")],
      fullWrite := s.fullWrite, digestWrite := s.digestWrite }
  refine ⟨one, rest, ?_, ?_, ?_, h4⟩
  · rw [hred]
    exact h1
  · rw [hred]
    exact h2
  · rw [hred, h3]
    simp [List.append_assoc]

theorem generateMonthSummary_escalates (now : Int) (monthName content : String)
    (fullCache : Option (Option CacheData)) (digestCache : Option (Option DigestData))
    (oracle : Nat → Except ApiErr String) (e0 : ApiErr)
    (hc : getCachedSummary now fullCache = none)
    (h0 : oracle 0 = Except.error e0)
    (h0t : isTokenLimitError e0.message = true) :
    generateMonthSummary now monthName content fullCache digestCache oracle =
      twoHalvesAttempt oracle now monthName content digestCache
        { n := 1, calls := [(CallTag.whole, "# " ++ monthName ++ "\n\n" ++ content)],
          fullWrite := none, digestWrite := none } := by
  unfold generateMonthSummary
  rw [hc]
  simp only [callApi, initS, h0, h0t, if_true, List.nil_append]

theorem twoHalvesAttempt_escalates_first (oracle : Nat → Except ApiErr String)
    (now : Int) (monthName content : String) (digestCache : Option (Option DigestData))
    (s : S) (e1 : ApiErr)
    (h1 : oracle s.n = Except.error e1)
    (h1t : isTokenLimitError e1.message = true) :
    twoHalvesAttempt oracle now monthName content digestCache s =
      quartersAttempt oracle now monthName content digestCache
        { n := s.n + 1,
          calls := s.calls ++ [(CallTag.firstHalf,
            "# " ++ monthName ++ " (First Half)\n\n" ++ (splitMonthContent content).fst)],
          fullWrite := s.fullWrite, digestWrite := s.digestWrite } := by
  unfold twoHalvesAttempt
  simp only [callApi, h1]
  unfold onSplitError
  rw [if_pos h1t]

theorem twoHalvesAttempt_escalates_second (oracle : Nat → Except ApiErr String)
    (now : Int) (monthName content : String) (digestCache : Option (Option DigestData))
    (s : S) (r1 : String) (e2 : ApiErr)
    (h1 : oracle s.n = Except.ok r1)
    (h2 : oracle (s.n + 1) = Except.error e2)
    (h2t : isTokenLimitError e2.message = true) :
    twoHalvesAttempt oracle now monthName content digestCache s =
      quartersAttempt oracle now monthName content digestCache
        { n := s.n + 2,
          calls := s.calls ++
            [(CallTag.firstHalf,
              "# " ++ monthName ++ " (First Half)\n\n" ++ (splitMonthContent content).fst),
             (CallTag.secondHalf,
              "# " ++ monthName ++ " (Second Half)\n\n" ++ (splitMonthContent content).snd)],
          fullWrite := s.fullWrite, digestWrite := s.digestWrite } := by
  unfold twoHalvesAttempt
  simp only [callApi, h1, h2, List.append_assoc, List.singleton_append, List.cons_append,
    List.nil_append]
  unfold onSplitError
  rw [if_pos h2t]

/-- C1: for a document whose whole-document call fails with a size-limit
error and whose two-half attempt also fails with a size-limit error (on
either half, so the quarter calls start at index `k = 2` or `k = 3`), the
run splits the original whole document's content — not the halves — into
four quarters via `splitMonthContentIntoFour`, summarizes each quarter in
order, combines the four trimmed quarter summaries with one combine call
that falls back to joining them with blank lines when the combine call
itself fails, caches the combined result under the month heading, and
returns it (with the digest line spliced after the heading). -/
theorem generateMonthSummary_fourPartEscalation (now : Int) (monthName content : String)
    (fullCache : Option (Option CacheData)) (digestCache : Option (Option DigestData))
    (oracle : Nat → Except ApiErr String) (e0 : ApiErr) (q0 q1 q2 q3 : String) (k : Nat)
    (hc : getCachedSummary now fullCache = none)
    (h0 : oracle 0 = Except.error e0)
    (h0t : isTokenLimitError e0.message = true)
    (hk : (k = 2 ∧ ∃ e1, oracle 1 = Except.error e1 ∧ isTokenLimitError e1.message = true) ∨
          (k = 3 ∧ (∃ r1, oracle 1 = Except.ok r1) ∧
            ∃ e2, oracle 2 = Except.error e2 ∧ isTokenLimitError e2.message = true))
    (hq0 : oracle k = Except.ok q0) (hq1 : oracle (k + 1) = Except.ok q1)
    (hq2 : oracle (k + 2) = Except.ok q2) (hq3 : oracle (k + 3) = Except.ok q3) :
    ∃ one pre rest,
      (generateMonthSummary now monthName content fullCache digestCache oracle).fst =
        headPat monthName ++ "**tl;dr:** " ++ one ++ "\n\n" ++
          (match oracle (k + 4) with
            | Except.ok c => strTrim c
            | Except.error _ =>
                String.intercalate "\n\n" [strTrim q0, strTrim q1, strTrim q2, strTrim q3]) ∧
      (generateMonthSummary now monthName content fullCache digestCache oracle).snd.fullWrite =
        some (headPat monthName ++
          (match oracle (k + 4) with
            | Except.ok c => strTrim c
            | Except.error _ =>
                String.intercalate "\n\n" [strTrim q0, strTrim q1, strTrim q2, strTrim q3])) ∧
      (generateMonthSummary now monthName content fullCache digestCache oracle).snd.calls =
        pre ++
          [(CallTag.quarter 0, "# " ++ monthName ++ " (First Quarter)\n\n" ++
              (splitMonthContentIntoFour content).getD 0 ""),
           (CallTag.quarter 1, "# " ++ monthName ++ " (Second Quarter)\n\n" ++
              (splitMonthContentIntoFour content).getD 1 ""),
           (CallTag.quarter 2, "# " ++ monthName ++ " (Third Quarter)\n\n" ++
              (splitMonthContentIntoFour content).getD 2 ""),
           (CallTag.quarter 3, "# " ++ monthName ++ " (Fourth Quarter)\n\n" ++
              (splitMonthContentIntoFour content).getD 3 ""),
           (CallTag.combineFour,
              combineFourPrompt monthName [strTrim q0, strTrim q1, strTrim q2, strTrim q3])] ++
          rest ∧
      pre.map Prod.fst =
        (if k = 2 then [CallTag.whole, CallTag.firstHalf]
         else [CallTag.whole, CallTag.firstHalf, CallTag.secondHalf]) ∧
      (rest = [] ∨ ∃ p, rest = [(CallTag.digest, p)]) := by
  rcases hk with ⟨hk2, e1, h1, h1t⟩ | ⟨hk3, ⟨r1, h1⟩, e2, h2, h2t⟩
  · subst hk2
    have hA := generateMonthSummary_escalates now monthName content fullCache
      digestCache oracle e0 hc h0 h0t
    have hB := twoHalvesAttempt_escalates_first oracle now monthName content digestCache
      { n := 1, calls := [(CallTag.whole, "# " ++ monthName ++ "\n\n" ++ content)],
        fullWrite := none, digestWrite := none } e1 h1 h1t
    obtain ⟨one, rest, hf, hw, hcl, hr⟩ := quartersAttempt_success oracle now monthName
      content digestCache
      { n := 2,
        calls := [(CallTag.whole, "# " ++ monthName ++ "\n\n" ++ content),
          (CallTag.firstHalf,
            "# " ++ monthName ++ " (First Half)\n\n" ++ (splitMonthContent content).fst)],
        fullWrite := none, digestWrite := none } q0 q1 q2 q3 hq0 hq1 hq2 hq3
    refine ⟨one,
      [(CallTag.whole, "# " ++ monthName ++ "\n\n" ++ content),
       (CallTag.firstHalf,
        "# " ++ monthName ++ " (First Half)\n\n" ++ (splitMonthContent content).fst)],
      rest, ?_, ?_, ?_, rfl, hr⟩
    · rw [hA, hB]
      exact hf
    · rw [hA, hB]
      exact hw
    · rw [hA, hB]
      exact hcl
  · subst hk3
    have hA := generateMonthSummary_escalates now monthName content fullCache
      digestCache oracle e0 hc h0 h0t
    have hB := twoHalvesAttempt_escalates_second oracle now monthName content digestCache
      { n := 1, calls := [(CallTag.whole, "# " ++ monthName ++ "\n\n" ++ content)],
        fullWrite := none, digestWrite := none } r1 e2 h1 h2 h2t
    obtain ⟨one, rest, hf, hw, hcl, hr⟩ := quartersAttempt_success oracle now monthName
      content digestCache
      { n := 3,
        calls := [(CallTag.whole, "# " ++ monthName ++ "\n\n" ++ content),
          (CallTag.firstHalf,
            "# " ++ monthName ++ " (First Half)\n\n" ++ (splitMonthContent content).fst),
          (CallTag.secondHalf,
            "# " ++ monthName ++ " (Second Half)\n\n" ++ (splitMonthContent content).snd)],
        fullWrite := none, digestWrite := none } q0 q1 q2 q3 hq0 hq1 hq2 hq3
    refine ⟨one,
      [(CallTag.whole, "# " ++ monthName ++ "\n\n" ++ content),
       (CallTag.firstHalf,
        "# " ++ monthName ++ " (First Half)\n\n" ++ (splitMonthContent content).fst),
       (CallTag.secondHalf,
        "# " ++ monthName ++ " (Second Half)\n\n" ++ (splitMonthContent content).snd)],
      rest, ?_, ?_, ?_, rfl, hr⟩
    · rw [hA, hB]
      exact hf
    · rw [hA, hB]
      exact hw
    · rw [hA, hB]
      exact hcl

/-- C1 witness: a concrete escalation in which the whole-document call and
the first-half call both fail with size-limit errors, the four quarter calls
and the combine call succeed. -/
theorem generateMonthSummary_fourPartEscalation_witness :
    getCachedSummary 0 none = none ∧
    isTokenLimitError "token limit" = true ∧
    isTokenLimitError "Input tokens exceed the limit" = true ∧
    (∃ one pre rest,
      (generateMonthSummary 0 "February 2021" "a\nb\nc\nd" none none
        (fun n => match n with
          | 0 => Except.error ⟨"token limit"⟩
          | 1 => Except.error ⟨"Input tokens exceed the limit"⟩
          | 2 => Except.ok "Quarter one summary text."
          | 3 => Except.ok "Quarter two summary text."
          | 4 => Except.ok "Quarter three summary text."
          | 5 => Except.ok "Quarter four summary text."
          | 6 => Except.ok "Combined four-quarter narrative."
          | _ => Except.ok "A digest sentence.")).fst =
        headPat "February 2021" ++ "**tl;dr:** " ++ one ++ "\n\n" ++
          (match (fun n => match n with
            | 0 => Except.error ⟨"token limit"⟩
            | 1 => Except.error ⟨"Input tokens exceed the limit"⟩
            | 2 => Except.ok "Quarter one summary text."
            | 3 => Except.ok "Quarter two summary text."
            | 4 => Except.ok "Quarter three summary text."
            | 5 => Except.ok "Quarter four summary text."
            | 6 => Except.ok "Combined four-quarter narrative."
            | _ => Except.ok "A digest sentence." : Nat → Except ApiErr String) (2 + 4) with
            | Except.ok c => strTrim c
            | Except.error _ =>
                String.intercalate "\n\n"
                  [strTrim "Quarter one summary text.", strTrim "Quarter two summary text.",
                   strTrim "Quarter three summary text.", strTrim "Quarter four summary text."]) ∧
      (generateMonthSummary 0 "February 2021" "a\nb\nc\nd" none none
        (fun n => match n with
          | 0 => Except.error ⟨"token limit"⟩
          | 1 => Except.error ⟨"Input tokens exceed the limit"⟩
          | 2 => Except.ok "Quarter one summary text."
          | 3 => Except.ok "Quarter two summary text."
          | 4 => Except.ok "Quarter three summary text."
          | 5 => Except.ok "Quarter four summary text."
          | 6 => Except.ok "Combined four-quarter narrative."
          | _ => Except.ok "A digest sentence.")).snd.fullWrite =
        some (headPat "February 2021" ++
          (match (fun n => match n with
            | 0 => Except.error ⟨"token limit"⟩
            | 1 => Except.error ⟨"Input tokens exceed the limit"⟩
            | 2 => Except.ok "Quarter one summary text."
            | 3 => Except.ok "Quarter two summary text."
            | 4 => Except.ok "Quarter three summary text."
            | 5 => Except.ok "Quarter four summary text."
            | 6 => Except.ok "Combined four-quarter narrative."
            | _ => Except.ok "A digest sentence." : Nat → Except ApiErr String) (2 + 4) with
            | Except.ok c => strTrim c
            | Except.error _ =>
                String.intercalate "\n\n"
                  [strTrim "Quarter one summary text.", strTrim "Quarter two summary text.",
                   strTrim "Quarter three summary text.", strTrim "Quarter four summary text."])) ∧
      (generateMonthSummary 0 "February 2021" "a\nb\nc\nd" none none
        (fun n => match n with
          | 0 => Except.error ⟨"token limit"⟩
          | 1 => Except.error ⟨"Input tokens exceed the limit"⟩
          | 2 => Except.ok "Quarter one summary text."
          | 3 => Except.ok "Quarter two summary text."
          | 4 => Except.ok "Quarter three summary text."
          | 5 => Except.ok "Quarter four summary text."
          | 6 => Except.ok "Combined four-quarter narrative."
          | _ => Except.ok "A digest sentence.")).snd.calls =
        pre ++
          [(CallTag.quarter 0, "# " ++ "February 2021" ++ " (First Quarter)\n\n" ++
              (splitMonthContentIntoFour "a\nb\nc\nd").getD 0 ""),
           (CallTag.quarter 1, "# " ++ "February 2021" ++ " (Second Quarter)\n\n" ++
              (splitMonthContentIntoFour "a\nb\nc\nd").getD 1 ""),
           (CallTag.quarter 2, "# " ++ "February 2021" ++ " (Third Quarter)\n\n" ++
              (splitMonthContentIntoFour "a\nb\nc\nd").getD 2 ""),
           (CallTag.quarter 3, "# " ++ "February 2021" ++ " (Fourth Quarter)\n\n" ++
              (splitMonthContentIntoFour "a\nb\nc\nd").getD 3 ""),
           (CallTag.combineFour,
              combineFourPrompt "February 2021"
                [strTrim "Quarter one summary text.", strTrim "Quarter two summary text.",
                 strTrim "Quarter three summary text.", strTrim "Quarter four summary text."])] ++
          rest ∧
      pre.map Prod.fst =
        (if 2 = 2 then [CallTag.whole, CallTag.firstHalf]
         else [CallTag.whole, CallTag.firstHalf, CallTag.secondHalf]) ∧
      (rest = [] ∨ ∃ p, rest = [(CallTag.digest, p)])) :=
  ⟨rfl, by decide, by decide,
    generateMonthSummary_fourPartEscalation 0 "February 2021" "a\nb\nc\nd" none none
      (fun n => match n with
        | 0 => Except.error ⟨"token limit"⟩
        | 1 => Except.error ⟨"Input tokens exceed the limit"⟩
        | 2 => Except.ok "Quarter one summary text."
        | 3 => Except.ok "Quarter two summary text."
        | 4 => Except.ok "Quarter three summary text."
        | 5 => Except.ok "Quarter four summary text."
        | 6 => Except.ok "Combined four-quarter narrative."
        | _ => Except.ok "A digest sentence.")
      ⟨"token limit"⟩ "Quarter one summary text." "Quarter two summary text."
      "Quarter three summary text." "Quarter four summary text." 2
      rfl rfl (by decide)
      (Or.inl ⟨rfl, ⟨"Input tokens exceed the limit"⟩, rfl, by decide⟩)
      rfl rfl rfl rfl⟩

end SlackSummary
